import Mathlib

/-!
# Verification of the realbot-g3 statistics persistence and aggregation engine

Shallow embedding of `modules/stats/stats_models.py` and `modules/stats/stats.py`.

Conventions of the embedding:

* Python `int` values that the subsystem only ever keeps non-negative
  (counters, identifiers, IV sums, shiny values, timestamps) are `Nat`;
  raw SQLite cells, which may be `NULL` and are dynamically typed, are
  `Option Int`.
* Timestamps (`datetime` values) are abstracted as `Nat` instants; the
  subsystem only stores and copies them.
* In-place mutation of Python objects is modelled by explicit state
  passing.  A Python method that can raise returns its post-mutation
  state together with an `Except`/`Option` outcome: an exception aborts
  the rest of the method but does not roll back mutations already made,
  so the returned state reflects exactly the mutations performed before
  the raise.
* The external species catalog (`get_species_by_index`) is out of scope
  per the specification; species identity is carried as the numeric
  index.  In the catalog, species index 201 is named "Unown" and it is
  the only species for which the source's `species.name == "Unown"`
  checks succeed, so those checks are embedded as comparisons with 201.
  Unown form letters are carried as their letter index 0..27
  (`get_unown_letter_by_index` / `get_unown_index_by_letter` form a
  bijection between letters and indices).
-/

namespace RealBot

/-- Battle outcome tag. The defining module (`modules/battle/battle_state.py`)
is an external collaborator supplying an opaque enum; the stats subsystem
only ever distinguishes `Caught` from everything else. -/
inductive BattleOutcome where
  | InProgress
  | Won
  | Lost
  | RanAway
  | Caught
deriving DecidableEq, Repr

/-- Fishing result tag. The defining module (`modules/items/fishing.py`) is an
external collaborator supplying an opaque enum; the stats subsystem only ever
distinguishes `Encounter` from everything else. -/
inductive FishingResult where
  | Encounter
  | Unsuccessful
  | GotAway
deriving DecidableEq, Repr

/-- A fishing attempt as supplied by the caller (`modules/items/fishing.py`,
external input struct): a rod identifier and a result. -/
structure FishingAttempt where
  rod : Nat
  result : FishingResult
deriving DecidableEq, Repr

/-- A Pokemon snapshot, the opaque input struct supplied by the caller.
`ivSum`, `shinyValue` and `unownLetterIndex` are derived from the raw data
blob in `modules/pokemon.py` (outside this subsystem) and are taken as
inputs here; `isShiny` is `shiny_value < 8` as in the source. -/
structure Pokemon where
  speciesIndex : Nat
  unownLetterIndex : Nat
  personalityValue : Nat
  ivSum : Nat
  shinyValue : Nat
deriving DecidableEq, Repr

/-- Embedding of `Pokemon.is_shiny`: `self.shiny_value < 8`. -/
def Pokemon.isShiny (p : Pokemon) : Bool :=
  p.shinyValue < 8

/-- Embedding of `pokemon.species.name == "Unown"`: in the external catalog exactly the
species with index 201 is named "Unown". -/
def Pokemon.isUnown (p : Pokemon) : Bool :=
  p.speciesIndex == 201

/-- Embedding of `SpeciesRecord` (stats_models.py): a value together with the species
(and Unown form) that set it. The species object is represented by its
index; the form is the Unown letter index. -/
structure SpeciesRecord where
  value : Nat
  speciesIndex : Nat
  speciesForm : Option Nat := none
deriving DecidableEq, Repr

/-- Embedding of `SpeciesRecord.create(value, pokemon)`. -/
def SpeciesRecord.create (value : Nat) (p : Pokemon) : SpeciesRecord :=
  if p.isUnown then
    { value := value, speciesIndex := p.speciesIndex, speciesForm := some p.unownLetterIndex }
  else
    { value := value, speciesIndex := p.speciesIndex, speciesForm := none }

/-- Embedding of `SpeciesRecord.is_same_species(pokemon)`. -/
def SpeciesRecord.is_same_species (r : SpeciesRecord) (p : Pokemon) : Bool :=
  p.speciesIndex == r.speciesIndex && (!p.isUnown || r.speciesForm == some p.unownLetterIndex)

/-- Embedding of `SpeciesRecord.copy()`: in this immutable embedding a copy is the value
itself. -/
def SpeciesRecord.copy (r : SpeciesRecord) : SpeciesRecord := r

/-- Embedding of `SpeciesRecord.species_id_for_database`: Unown forms are stored under the
reserved index range `20100 + letter_index`. -/
def SpeciesRecord.species_id_for_database (r : SpeciesRecord) : Nat :=
  if r.speciesIndex == 201 && r.speciesForm.isSome then
    20100 + r.speciesForm.getD 0
  else
    r.speciesIndex

/-- Embedding of `Encounter` (stats_models.py): one logged encounter. `type` carries the
`EncounterType.value` string tag; `data` is the Pokemon snapshot itself. -/
structure Encounter where
  encounter_id : Nat
  shiny_phase_id : Nat
  matching_custom_catch_filters : Option String
  encounter_time : Nat
  map : String
  coordinates : String
  bot_mode : String
  type : Option String
  outcome : Option BattleOutcome
  pokemon : Pokemon
deriving DecidableEq, Repr

/-- Embedding of `Encounter.species_id`: `self.pokemon.species.index`. -/
def Encounter.species_id (e : Encounter) : Nat :=
  e.pokemon.speciesIndex

/-- Embedding of `Encounter.is_shiny`. -/
def Encounter.is_shiny (e : Encounter) : Bool :=
  e.pokemon.isShiny

/-- Embedding of `Encounter.iv_sum`. -/
def Encounter.iv_sum (e : Encounter) : Nat :=
  e.pokemon.ivSum

/-- Embedding of `Encounter.shiny_value`. -/
def Encounter.shiny_value (e : Encounter) : Nat :=
  e.pokemon.shinyValue

/-- Embedding of `EncounterSummary` (stats_models.py): per species(-form) lifetime and
current-phase rollup. The species object is represented by its index. -/
structure EncounterSummary where
  speciesIndex : Nat
  species_form : Option Nat
  total_encounters : Nat
  shiny_encounters : Nat
  catches : Nat
  total_highest_iv_sum : Nat
  total_lowest_iv_sum : Nat
  total_highest_sv : Nat
  total_lowest_sv : Nat
  phase_encounters : Nat
  phase_highest_iv_sum : Option Nat
  phase_lowest_iv_sum : Option Nat
  phase_highest_sv : Option Nat
  phase_lowest_sv : Option Nat
  last_encounter_time : Nat
deriving DecidableEq, Repr

/-- Embedding of `EncounterSummary.create(encounter)`. -/
def EncounterSummary.create (e : Encounter) : EncounterSummary :=
  { speciesIndex := e.pokemon.speciesIndex
    species_form := if e.pokemon.isUnown then some e.pokemon.unownLetterIndex else none
    total_encounters := 1
    shiny_encounters := if !e.is_shiny then 0 else 1
    catches := 0
    total_highest_iv_sum := e.iv_sum
    total_lowest_iv_sum := e.iv_sum
    total_highest_sv := e.shiny_value
    total_lowest_sv := e.shiny_value
    phase_encounters := if !e.is_shiny then 1 else 0
    phase_highest_iv_sum := if !e.is_shiny then some e.iv_sum else none
    phase_lowest_iv_sum := if !e.is_shiny then some e.iv_sum else none
    phase_highest_sv := if !e.is_shiny then some e.shiny_value else none
    phase_lowest_sv := if !e.is_shiny then some e.shiny_value else none
    last_encounter_time := e.encounter_time }

/-- Embedding of `EncounterSummary.update`, statements 1-2: `total_encounters += 1` and
`last_encounter_time = encounter.encounter_time`. -/
def EncounterSummary.updStep1 (e : Encounter) (s : EncounterSummary) : EncounterSummary :=
  { s with total_encounters := s.total_encounters + 1,
           last_encounter_time := e.encounter_time }

/-- Embedding of `EncounterSummary.update`, the `total_highest_iv_sum` if-statement. -/
def EncounterSummary.updStep2 (e : Encounter) (s : EncounterSummary) : EncounterSummary :=
  if s.total_highest_iv_sum < e.iv_sum then
    { s with total_highest_iv_sum := e.iv_sum } else s

/-- Embedding of `EncounterSummary.update`, the `total_lowest_iv_sum` if-statement. -/
def EncounterSummary.updStep3 (e : Encounter) (s : EncounterSummary) : EncounterSummary :=
  if s.total_lowest_iv_sum > e.iv_sum then
    { s with total_lowest_iv_sum := e.iv_sum } else s

/-- Embedding of `EncounterSummary.update`, the `total_highest_sv` if-statement. -/
def EncounterSummary.updStep4 (e : Encounter) (s : EncounterSummary) : EncounterSummary :=
  if s.total_highest_sv < e.shiny_value then
    { s with total_highest_sv := e.shiny_value } else s

/-- Embedding of `EncounterSummary.update`, the `total_lowest_sv` if-statement. -/
def EncounterSummary.updStep5 (e : Encounter) (s : EncounterSummary) : EncounterSummary :=
  if s.total_lowest_sv > e.shiny_value then
    { s with total_lowest_sv := e.shiny_value } else s

/-- Embedding of `EncounterSummary.update`, `phase_encounters += 1`. -/
def EncounterSummary.updStep6 (_e : Encounter) (s : EncounterSummary) : EncounterSummary :=
  { s with phase_encounters := s.phase_encounters + 1 }

/-- Embedding of `EncounterSummary.update`, the `phase_highest_iv_sum` if-statement
(`is None or <` guard). -/
def EncounterSummary.updStep7 (e : Encounter) (s : EncounterSummary) : EncounterSummary :=
  if s.phase_highest_iv_sum.isNone || s.phase_highest_iv_sum.getD 0 < e.iv_sum then
    { s with phase_highest_iv_sum := some e.iv_sum } else s

/-- Embedding of `EncounterSummary.update`, the `phase_lowest_iv_sum` if-statement. -/
def EncounterSummary.updStep8 (e : Encounter) (s : EncounterSummary) : EncounterSummary :=
  if s.phase_lowest_iv_sum.isNone || s.phase_lowest_iv_sum.getD 0 > e.iv_sum then
    { s with phase_lowest_iv_sum := some e.iv_sum } else s

/-- Embedding of `EncounterSummary.update`, the final `if not encounter.is_shiny` block:
the two phase shiny-value if-statements for a non-shiny encounter, else
`shiny_encounters += 1`. -/
def EncounterSummary.updStep9 (e : Encounter) (s : EncounterSummary) : EncounterSummary :=
  if !e.is_shiny then
    let s := if s.phase_highest_sv.isNone || s.phase_highest_sv.getD 0 < e.shiny_value then
               { s with phase_highest_sv := some e.shiny_value } else s
    if s.phase_lowest_sv.isNone || s.phase_lowest_sv.getD 0 > e.shiny_value then
      { s with phase_lowest_sv := some e.shiny_value } else s
  else
    { s with shiny_encounters := s.shiny_encounters + 1 }

/-- Embedding of `EncounterSummary.update(encounter)`: the source's statements applied in
order (each statement is one of the `updStep` functions above). -/
def EncounterSummary.update (s : EncounterSummary) (e : Encounter) : EncounterSummary :=
  EncounterSummary.updStep9 e (EncounterSummary.updStep8 e (EncounterSummary.updStep7 e
    (EncounterSummary.updStep6 e (EncounterSummary.updStep5 e (EncounterSummary.updStep4 e
      (EncounterSummary.updStep3 e (EncounterSummary.updStep2 e
        (EncounterSummary.updStep1 e s))))))))

/-- Embedding of `EncounterSummary.update_outcome(outcome)`: increments `catches` iff the
outcome is `Caught`. -/
def EncounterSummary.update_outcome (s : EncounterSummary) (outcome : BattleOutcome) : EncounterSummary :=
  if outcome = BattleOutcome.Caught then { s with catches := s.catches + 1 } else s

/-- Embedding of `EncounterSummary.is_same_species(pokemon)`. -/
def EncounterSummary.is_same_species (s : EncounterSummary) (p : Pokemon) : Bool :=
  p.speciesIndex == s.speciesIndex && (!p.isUnown || s.species_form == some p.unownLetterIndex)

/-- Embedding of `EncounterSummary.species_id_for_database`. -/
def EncounterSummary.species_id_for_database (s : EncounterSummary) : Nat :=
  if s.speciesIndex == 201 && s.species_form.isSome then
    20100 + s.species_form.getD 0
  else
    s.speciesIndex

/-- Embedding of `ShinyPhase` (stats_models.py).

The dataclass in the source declares exactly the fields below except
`anti_shiny_encounters`: that attribute appears nowhere in the dataclass and
is never assigned by any code path in the repository, yet
`StatsDatabase._update_shiny_phase` reads it.  Reading an attribute that was
never assigned raises `AttributeError` in Python, so the dynamic attribute is
embedded as `antiShinyEncounters : Option Nat` with `none` meaning
"attribute absent" (which every constructed phase has). -/
structure ShinyPhase where
  shiny_phase_id : Nat
  start_time : Nat
  end_time : Option Nat := none
  shiny_encounter : Option Encounter := none
  encounters : Nat := 0
  highest_iv_sum : Option SpeciesRecord := none
  lowest_iv_sum : Option SpeciesRecord := none
  highest_sv : Option SpeciesRecord := none
  lowest_sv : Option SpeciesRecord := none
  longest_streak : Option SpeciesRecord := none
  current_streak : Option SpeciesRecord := none
  fishing_attempts : Nat := 0
  successful_fishing_attempts : Nat := 0
  longest_unsuccessful_fishing_streak : Nat := 0
  current_unsuccessful_fishing_streak : Nat := 0
  pokenav_calls : Nat := 0
  snapshot_total_encounters : Option Nat := none
  snapshot_total_shiny_encounters : Option Nat := none
  snapshot_species_encounters : Option Nat := none
  snapshot_species_shiny_encounters : Option Nat := none
  antiShinyEncounters : Option Nat := none
deriving DecidableEq, Repr

/-- Embedding of `ShinyPhase.create(shiny_phase_id, start_time)`. -/
def ShinyPhase.create (shiny_phase_id : Nat) (start_time : Nat) : ShinyPhase :=
  { shiny_phase_id := shiny_phase_id, start_time := start_time }

/-- Embedding of `ShinyPhase.update`, statement 1: `encounters += 1`. -/
def ShinyPhase.updStep1 (_e : Encounter) (p : ShinyPhase) : ShinyPhase :=
  { p with encounters := p.encounters + 1 }

/-- Embedding of `ShinyPhase.update`, the `highest_iv_sum` if-statement (the record
comparison goes through `SpeciesRecord.__lt__`, which compares the `value`
component; replacement happens only on strict inequality). -/
def ShinyPhase.updStep2 (e : Encounter) (p : ShinyPhase) : ShinyPhase :=
  if p.highest_iv_sum.isNone || (p.highest_iv_sum.map (·.value)).getD 0 < e.iv_sum then
    { p with highest_iv_sum := some (SpeciesRecord.create e.iv_sum e.pokemon) } else p

/-- Embedding of `ShinyPhase.update`, the `lowest_iv_sum` if-statement. -/
def ShinyPhase.updStep3 (e : Encounter) (p : ShinyPhase) : ShinyPhase :=
  if p.lowest_iv_sum.isNone || (p.lowest_iv_sum.map (·.value)).getD 0 > e.iv_sum then
    { p with lowest_iv_sum := some (SpeciesRecord.create e.iv_sum e.pokemon) } else p

/-- Embedding of `ShinyPhase.update`, the `if not encounter.is_shiny` block guarding the
two shiny-value if-statements. -/
def ShinyPhase.updStep4 (e : Encounter) (p : ShinyPhase) : ShinyPhase :=
  if !e.is_shiny then
    let p := if p.highest_sv.isNone || (p.highest_sv.map (·.value)).getD 0 < e.shiny_value then
               { p with highest_sv := some (SpeciesRecord.create e.shiny_value e.pokemon) } else p
    if p.lowest_sv.isNone || (p.lowest_sv.map (·.value)).getD 0 > e.shiny_value then
      { p with lowest_sv := some (SpeciesRecord.create e.shiny_value e.pokemon) } else p
  else p

/-- Embedding of `ShinyPhase.update`, the `current_streak` if-statement: reset to a fresh
record of value 1 when no streak exists or the species(-form) changed, else
`+= 1`. -/
def ShinyPhase.updStep5 (e : Encounter) (p : ShinyPhase) : ShinyPhase :=
  match p.current_streak with
  | none => { p with current_streak := some (SpeciesRecord.create 1 e.pokemon) }
  | some r =>
      if !r.is_same_species e.pokemon then
        { p with current_streak := some (SpeciesRecord.create 1 e.pokemon) }
      else
        { p with current_streak := some { r with value := r.value + 1 } }

/-- Embedding of `ShinyPhase.update`, the `longest_streak` if-statement: copy the current
streak when it strictly exceeds the longest one. -/
def ShinyPhase.updStep6 (_e : Encounter) (p : ShinyPhase) : ShinyPhase :=
  if p.longest_streak.isNone ||
     (p.current_streak.map (·.value)).getD 0 > (p.longest_streak.map (·.value)).getD 0 then
    { p with longest_streak := p.current_streak.map SpeciesRecord.copy }
  else p

/-- Embedding of `ShinyPhase.update(encounter)`: the source's statements applied in order
(each statement is one of the `updStep` functions above). -/
def ShinyPhase.update (p : ShinyPhase) (e : Encounter) : ShinyPhase :=
  ShinyPhase.updStep6 e (ShinyPhase.updStep5 e (ShinyPhase.updStep4 e
    (ShinyPhase.updStep3 e (ShinyPhase.updStep2 e (ShinyPhase.updStep1 e p)))))

/-- Embedding of `ShinyPhase.update_fishing_attempt(attempt)`. -/
def ShinyPhase.update_fishing_attempt (p : ShinyPhase) (attempt : FishingAttempt) : ShinyPhase :=
  let p := { p with fishing_attempts := p.fishing_attempts + 1 }
  if attempt.result ≠ FishingResult.Encounter then
    let p := { p with current_unsuccessful_fishing_streak := p.current_unsuccessful_fishing_streak + 1 }
    if p.current_unsuccessful_fishing_streak > p.longest_unsuccessful_fishing_streak then
      { p with longest_unsuccessful_fishing_streak := p.current_unsuccessful_fishing_streak }
    else p
  else
    { p with successful_fishing_attempts := p.successful_fishing_attempts + 1,
             current_unsuccessful_fishing_streak := 0 }

/-! ## Durable store rows (stats.py, SQLite relations) -/

/-- A row of the `encounters` table (schema in `_update_schema`, v0 block).
`data` is the full Pokemon snapshot blob; `is_roamer` is never set by
`_insert_encounter` and keeps its schema default 0. -/
structure EncounterRow where
  encounter_id : Nat
  species_id : Nat
  personality_value : Nat
  shiny_phase_id : Nat
  is_shiny : Bool
  is_roamer : Bool := false
  matching_custom_catch_filters : Option String
  encounter_time : Nat
  map : String
  coordinates : String
  bot_mode : String
  type : Option String
  outcome : Option BattleOutcome
  data : Pokemon
deriving DecidableEq, Repr

/-- The row written by `StatsDatabase._insert_encounter` (the INSERT passes
the literal `None` for `outcome`). -/
def encounterRowOf (e : Encounter) : EncounterRow :=
  { encounter_id := e.encounter_id
    species_id := e.species_id
    personality_value := e.pokemon.personalityValue
    shiny_phase_id := e.shiny_phase_id
    is_shiny := e.is_shiny
    matching_custom_catch_filters := e.matching_custom_catch_filters
    encounter_time := e.encounter_time
    map := e.map
    coordinates := e.coordinates
    bot_mode := e.bot_mode
    type := e.type
    outcome := none
    data := e.pokemon }

/-- Embedding of `Encounter.from_row_data` applied to a stored `encounters` row: all
derived fields are recomputed from the data blob. -/
def EncounterRow.toEncounter (r : EncounterRow) : Encounter :=
  { encounter_id := r.encounter_id
    shiny_phase_id := r.shiny_phase_id
    matching_custom_catch_filters := r.matching_custom_catch_filters
    encounter_time := r.encounter_time
    map := r.map
    coordinates := r.coordinates
    bot_mode := r.bot_mode
    type := r.type
    outcome := r.outcome
    pokemon := r.data }

/-- A row of the `shiny_phases` table, with one field per column of the
final (version 3) schema.  Nullable, dynamically typed SQLite cells are
`Option Int`; the field defaults are the schema column defaults, so a plain
`INSERT INTO shiny_phases (shiny_phase_id, start_time)` row is
`{ shiny_phase_id := i, start_time := t }`. -/
structure PhaseRow where
  shiny_phase_id : Nat
  start_time : Nat
  end_time : Option Int := none
  shiny_encounter_id : Option Int := none
  encounters : Option Int := some 0
  highest_iv_sum : Option Int := none
  highest_iv_sum_species : Option Int := none
  lowest_iv_sum : Option Int := none
  lowest_iv_sum_species : Option Int := none
  highest_sv : Option Int := none
  highest_sv_species : Option Int := none
  lowest_sv : Option Int := none
  lowest_sv_species : Option Int := none
  longest_streak : Option Int := some 0
  longest_streak_species : Option Int := none
  current_streak : Option Int := some 0
  current_streak_species : Option Int := none
  fishing_attempts : Option Int := some 0
  successful_fishing_attempts : Option Int := some 0
  longest_unsuccessful_fishing_streak : Option Int := some 0
  current_unsuccessful_fishing_streak : Option Int := some 0
  snapshot_total_encounters : Option Int := none
  snapshot_total_shiny_encounters : Option Int := none
  snapshot_species_encounters : Option Int := none
  snapshot_species_shiny_encounters : Option Int := none
  pokenav_calls : Option Int := some 0
  anti_shiny_encounters : Option Int := some 0
deriving DecidableEq, Repr

/-- The 27 cells produced for one row by the SELECT in
`StatsDatabase._query_shiny_phases`, in that statement's column order (the
`anti_shiny_encounters` column comes right after `encounters`). -/
def PhaseRow.toCells (r : PhaseRow) : List (Option Int) :=
  [ some (r.shiny_phase_id : Int)
  , some (r.start_time : Int)
  , r.end_time
  , r.shiny_encounter_id
  , r.encounters
  , r.anti_shiny_encounters
  , r.highest_iv_sum
  , r.highest_iv_sum_species
  , r.lowest_iv_sum
  , r.lowest_iv_sum_species
  , r.highest_sv
  , r.highest_sv_species
  , r.lowest_sv
  , r.lowest_sv_species
  , r.longest_streak
  , r.longest_streak_species
  , r.current_streak
  , r.current_streak_species
  , r.fishing_attempts
  , r.successful_fishing_attempts
  , r.longest_unsuccessful_fishing_streak
  , r.current_unsuccessful_fishing_streak
  , r.pokenav_calls
  , r.snapshot_total_encounters
  , r.snapshot_total_shiny_encounters
  , r.snapshot_species_encounters
  , r.snapshot_species_shiny_encounters ]

/-- The 23 SET parameters computed by `StatsDatabase._update_shiny_phase`,
in the UPDATE statement's order.

Returns `none` when reading `shiny_phase.anti_shiny_encounters` fails:
no code path in the repository ever assigns that attribute (see
`ShinyPhase.antiShinyEncounters`), so in the source this read raises
`AttributeError` before any value tuple is built.

The source also has a slip at the `lowest_iv_sum_species` parameter: it
passes `shiny_phase.highest_iv_sum.species_id_for_database` (guarded on
`lowest_iv_sum is not None`), embedded here verbatim. -/
def updateShinyPhaseValues (p : ShinyPhase) : Option (List (Option Int)) :=
  match p.antiShinyEncounters with
  | none => none
  | some anti => some
    [ some (p.encounters : Int)
    , some (anti : Int)
    , p.highest_iv_sum.map (fun r => (r.value : Int))
    , p.highest_iv_sum.map (fun r => (r.species_id_for_database : Int))
    , p.lowest_iv_sum.map (fun r => (r.value : Int))
    , if p.lowest_iv_sum.isSome then
        p.highest_iv_sum.map (fun r => (r.species_id_for_database : Int))
      else none
    , p.highest_sv.map (fun r => (r.value : Int))
    , p.highest_sv.map (fun r => (r.species_id_for_database : Int))
    , p.lowest_sv.map (fun r => (r.value : Int))
    , p.lowest_sv.map (fun r => (r.species_id_for_database : Int))
    , p.longest_streak.map (fun r => (r.value : Int))
    , p.longest_streak.map (fun r => (r.species_id_for_database : Int))
    , p.current_streak.map (fun r => (r.value : Int))
    , p.current_streak.map (fun r => (r.species_id_for_database : Int))
    , some (p.fishing_attempts : Int)
    , some (p.successful_fishing_attempts : Int)
    , some (p.longest_unsuccessful_fishing_streak : Int)
    , some (p.current_unsuccessful_fishing_streak : Int)
    , some (p.pokenav_calls : Int)
    , p.snapshot_total_encounters.map (fun n => (n : Int))
    , p.snapshot_total_shiny_encounters.map (fun n => (n : Int))
    , p.snapshot_species_encounters.map (fun n => (n : Int))
    , p.snapshot_species_shiny_encounters.map (fun n => (n : Int)) ]

/-- Applying the UPDATE of `_update_shiny_phase` to one stored row: the 23
SET values land in the 23 columns named by the statement. -/
def applyShinyPhaseValues (r : PhaseRow) (v : List (Option Int)) : PhaseRow :=
  { r with
    encounters := v.getD 0 none
    anti_shiny_encounters := v.getD 1 none
    highest_iv_sum := v.getD 2 none
    highest_iv_sum_species := v.getD 3 none
    lowest_iv_sum := v.getD 4 none
    lowest_iv_sum_species := v.getD 5 none
    highest_sv := v.getD 6 none
    highest_sv_species := v.getD 7 none
    lowest_sv := v.getD 8 none
    lowest_sv_species := v.getD 9 none
    longest_streak := v.getD 10 none
    longest_streak_species := v.getD 11 none
    current_streak := v.getD 12 none
    current_streak_species := v.getD 13 none
    fishing_attempts := v.getD 14 none
    successful_fishing_attempts := v.getD 15 none
    longest_unsuccessful_fishing_streak := v.getD 16 none
    current_unsuccessful_fishing_streak := v.getD 17 none
    pokenav_calls := v.getD 18 none
    snapshot_total_encounters := v.getD 19 none
    snapshot_total_shiny_encounters := v.getD 20 none
    snapshot_species_encounters := v.getD 21 none
    snapshot_species_shiny_encounters := v.getD 22 none }

/-- Embedding of `UPDATE shiny_phases SET ... WHERE shiny_phase_id = ?`. -/
def updatePhaseRows (rows : List PhaseRow) (id : Nat) (v : List (Option Int)) : List PhaseRow :=
  rows.map (fun r => if r.shiny_phase_id == id then applyShinyPhaseValues r v else r)

/-! ## Read side: `ShinyPhase.from_row_data` -/

/-- The `SpeciesRecord` object built by `SpeciesRecord.from_row_values`: the
value component is the raw DB cell handed in (`Option Int`, possibly NULL). -/
structure SpeciesRecordRead where
  value : Option Int
  speciesIndex : Nat
  speciesForm : Option Nat := none
deriving DecidableEq, Repr

/-- Embedding of `SpeciesRecord.from_row_values(value, species_id)`: Python's
`if not species_id` is true for both `None` and `0`. -/
def SpeciesRecord.from_row_values (value : Option Int) (species_id : Option Int) :
    Option SpeciesRecordRead :=
  match species_id with
  | none => none
  | some sid =>
    if sid == 0 then none
    else if 20100 ≤ sid && sid < 20200 then
      some { value := value, speciesIndex := 201, speciesForm := some (sid - 20100).toNat }
    else
      some { value := value, speciesIndex := sid.toNat }

/-- The `ShinyPhase` object built by `ShinyPhase.from_row_data`: every plain
field holds the raw cell the constructor received. -/
structure ShinyPhaseRead where
  shiny_phase_id : Option Int
  start_time : Option Int
  end_time : Option Int
  shiny_encounter : Option Encounter
  encounters : Option Int
  highest_iv_sum : Option SpeciesRecordRead
  lowest_iv_sum : Option SpeciesRecordRead
  highest_sv : Option SpeciesRecordRead
  lowest_sv : Option SpeciesRecordRead
  longest_streak : Option SpeciesRecordRead
  current_streak : Option SpeciesRecordRead
  fishing_attempts : Option Int
  successful_fishing_attempts : Option Int
  longest_unsuccessful_fishing_streak : Option Int
  current_unsuccessful_fishing_streak : Option Int
  pokenav_calls : Option Int
  snapshot_total_encounters : Option Int
  snapshot_total_shiny_encounters : Option Int
  snapshot_species_encounters : Option Int
  snapshot_species_shiny_encounters : Option Int
deriving DecidableEq, Repr

/-- Embedding of `ShinyPhase.from_row_data(row, shiny_encounter)`, index for index:
positional row indices exactly as written in the source (which match a row
layout *without* the `anti_shiny_encounters` column that the version-3
SELECT in `_query_shiny_phases` produces at index 5). -/
def ShinyPhase.from_row_data (row : List (Option Int)) (shiny_encounter : Option Encounter) :
    ShinyPhaseRead :=
  { shiny_phase_id := row.getD 0 none
    start_time := row.getD 1 none
    end_time := row.getD 2 none
    shiny_encounter := shiny_encounter
    encounters := row.getD 4 none
    highest_iv_sum := SpeciesRecord.from_row_values (row.getD 5 none) (row.getD 6 none)
    lowest_iv_sum := SpeciesRecord.from_row_values (row.getD 7 none) (row.getD 8 none)
    highest_sv := SpeciesRecord.from_row_values (row.getD 9 none) (row.getD 10 none)
    lowest_sv := SpeciesRecord.from_row_values (row.getD 11 none) (row.getD 12 none)
    longest_streak := SpeciesRecord.from_row_values (row.getD 13 none) (row.getD 14 none)
    current_streak := SpeciesRecord.from_row_values (row.getD 15 none) (row.getD 16 none)
    fishing_attempts := row.getD 17 none
    successful_fishing_attempts := row.getD 18 none
    longest_unsuccessful_fishing_streak := row.getD 19 none
    current_unsuccessful_fishing_streak := row.getD 20 none
    pokenav_calls := row.getD 21 none
    snapshot_total_encounters := row.getD 22 none
    snapshot_total_shiny_encounters := row.getD 23 none
    snapshot_species_encounters := row.getD 24 none
    snapshot_species_shiny_encounters := row.getD 25 none }

/-! ## Encounter summary rows and the store -/

/-- Embedding of `get_unown_letter_by_index` (modules/pokemon/pokemon_data.py). -/
def get_unown_letter_by_index (letter_index : Nat) : String :=
  if letter_index == 0 then "A"
  else if letter_index == 26 then "?"
  else if letter_index == 27 then "!"
  else String.singleton (Char.ofNat (65 + letter_index))

/-- Modelled from the spec: the external read-only species catalog resolves
denormalized name strings by numeric index (spec section 6); the only name
this subsystem ever compares against is "Unown", species index 201. -/
def species_name_of (index : Nat) : String :=
  if index == 201 then "Unown" else "species-" ++ toString index

/-- Embedding of `EncounterSummary.species_name`. -/
def EncounterSummary.species_name (s : EncounterSummary) : String :=
  match s.species_form with
  | some form =>
    if s.speciesIndex == 201 then
      species_name_of s.speciesIndex ++ " (" ++ get_unown_letter_by_index form ++ ")"
    else species_name_of s.speciesIndex
  | none => species_name_of s.speciesIndex

/-- A row of the `encounter_summaries` table (15 columns). -/
structure SummaryRow where
  species_id : Nat
  species_name : String
  total_encounters : Nat
  shiny_encounters : Nat
  catches : Nat
  total_highest_iv_sum : Nat
  total_lowest_iv_sum : Nat
  total_highest_sv : Nat
  total_lowest_sv : Nat
  phase_encounters : Nat
  phase_highest_iv_sum : Option Nat
  phase_lowest_iv_sum : Option Nat
  phase_highest_sv : Option Nat
  phase_lowest_sv : Option Nat
  last_encounter_time : Nat
deriving DecidableEq, Repr

/-- The row written by `StatsDatabase._insert_or_update_encounter_summary`
(a `REPLACE INTO` keyed on `species_id`). -/
def summaryRowOf (s : EncounterSummary) : SummaryRow :=
  { species_id := s.species_id_for_database
    species_name := s.species_name
    total_encounters := s.total_encounters
    shiny_encounters := s.shiny_encounters
    catches := s.catches
    total_highest_iv_sum := s.total_highest_iv_sum
    total_lowest_iv_sum := s.total_lowest_iv_sum
    total_highest_sv := s.total_highest_sv
    total_lowest_sv := s.total_lowest_sv
    phase_encounters := s.phase_encounters
    phase_highest_iv_sum := s.phase_highest_iv_sum
    phase_lowest_iv_sum := s.phase_lowest_iv_sum
    phase_highest_sv := s.phase_highest_sv
    phase_lowest_sv := s.phase_lowest_sv
    last_encounter_time := s.last_encounter_time }

/-! ## Schema model (Schema Manager) -/

/-- One column of a table schema: its name and the rest of its declaration
(type, constraints, default). -/
structure Column where
  name : String
  decl : String
deriving DecidableEq, Repr

/-- One table of the store's schema. -/
structure Table where
  name : String
  columns : List Column
deriving DecidableEq, Repr

/-- The logical on-disk schema: the tables that exist plus the contents of
the single row of the `schema_version` table (`none` when that table is
empty or absent). -/
structure Schema where
  tables : List Table := []
  versionRow : Option Nat := none
deriving DecidableEq, Repr

def Schema.hasTable (s : Schema) (n : String) : Bool :=
  s.tables.any (fun t => t.name == n)

/-- Embedding of `CREATE TABLE`. -/
def Schema.createTable (s : Schema) (t : Table) : Schema :=
  { s with tables := s.tables ++ [t] }

/-- Embedding of `DROP TABLE`. -/
def Schema.dropTable (s : Schema) (n : String) : Schema :=
  { s with tables := s.tables.filter (fun t => t.name != n) }

/-- Embedding of `ALTER TABLE ... ADD`. -/
def Schema.alterTableAdd (s : Schema) (n : String) (c : Column) : Schema :=
  { s with tables := s.tables.map (fun t => if t.name == n then { t with columns := t.columns ++ [c] } else t) }

/-- Embedding of `current_schema_version` (stats.py). -/
def current_schema_version : Nat := 3

/-- Embedding of `StatsDatabase._get_schema_version`: 0 when the `schema_version` table
does not exist or holds no row. -/
def StatsDatabase.get_schema_version (s : Schema) : Nat :=
  if !s.hasTable "schema_version" then 0
  else s.versionRow.getD 0

/-- The `StatsDatabaseSchemaTooNew` exception (stats_models.py); the message
names the stored and the supported version. -/
structure StatsDatabaseSchemaTooNew where
  dbVersion : Nat
  supportedVersion : Nat
deriving DecidableEq, Repr

/-- Embedding of `StatsDatabase._update_schema(from_schema_version)`: the three forward
migration blocks, then the version row is rewritten to the current value. -/
def StatsDatabase.update_schema (from_schema_version : Nat) (s : Schema) : Schema :=
  let s :=
    if from_schema_version ≤ 0 then
      let s := s.createTable { name := "schema_version", columns :=
        [⟨"version", "INT UNSIGNED"⟩] }
      let s := s.createTable { name := "base_data", columns :=
        [⟨"data_key", "INT UNSIGNED PRIMARY KEY"⟩, ⟨"value", "TEXT DEFAULT NULL"⟩] }
      let s := s.createTable { name := "encounter_summaries", columns :=
        [⟨"species_id", "INT UNSIGNED PRIMARY KEY"⟩, ⟨"species_name", "TEXT NOT NULL"⟩,
         ⟨"total_encounters", "INT UNSIGNED"⟩, ⟨"shiny_encounters", "INT UNSIGNED"⟩,
         ⟨"catches", "INT UNSIGNED"⟩, ⟨"total_highest_iv_sum", "INT UNSIGNED"⟩,
         ⟨"total_lowest_iv_sum", "INT UNSIGNED"⟩, ⟨"total_highest_sv", "INT UNSIGNED"⟩,
         ⟨"total_lowest_sv", "INT UNSIGNED"⟩, ⟨"phase_encounters", "INT UNSIGNED"⟩,
         ⟨"phase_highest_iv_sum", "INT UNSIGNED DEFAULT NULL"⟩,
         ⟨"phase_lowest_iv_sum", "INT UNSIGNED DEFAULT NULL"⟩,
         ⟨"phase_highest_sv", "INT UNSIGNED DEFAULT NULL"⟩,
         ⟨"phase_lowest_sv", "INT UNSIGNED DEFAULT NULL"⟩,
         ⟨"last_encounter_time", "DATETIME"⟩] }
      let s := s.createTable { name := "shiny_phases", columns :=
        [⟨"shiny_phase_id", "INT UNSIGNED PRIMARY KEY"⟩, ⟨"start_time", "DATETIME NOT NULL"⟩,
         ⟨"end_time", "DATETIME DEFAULT NULL"⟩, ⟨"shiny_encounter_id", "INT UNSIGNED DEFAULT NULL"⟩,
         ⟨"encounters", "INT UNSIGNED DEFAULT 0"⟩, ⟨"highest_iv_sum", "INT UNSIGNED DEFAULT NULL"⟩,
         ⟨"highest_iv_sum_species", "INT UNSIGNED DEFAULT NULL"⟩,
         ⟨"lowest_iv_sum", "INT UNSIGNED DEFAULT NULL"⟩,
         ⟨"lowest_iv_sum_species", "INT UNSIGNED DEFAULT NULL"⟩,
         ⟨"highest_sv", "INT UNSIGNED DEFAULT NULL"⟩,
         ⟨"highest_sv_species", "INT UNSIGNED DEFAULT NULL"⟩,
         ⟨"lowest_sv", "INT UNSIGNED DEFAULT NULL"⟩,
         ⟨"lowest_sv_species", "INT UNSIGNED DEFAULT NULL"⟩,
         ⟨"longest_streak", "INT UNSIGNED DEFAULT 0"⟩,
         ⟨"longest_streak_species", "INT UNSIGNED DEFAULT NULL"⟩,
         ⟨"current_streak", "INT UNSIGNED DEFAULT 0"⟩,
         ⟨"current_streak_species", "INT UNSIGNED DEFAULT NULL"⟩,
         ⟨"fishing_attempts", "INT UNSIGNED DEFAULT 0"⟩,
         ⟨"successful_fishing_attempts", "INT UNSIGNED DEFAULT 0"⟩,
         ⟨"longest_unsuccessful_fishing_streak", "INT UNSIGNED DEFAULT 0"⟩,
         ⟨"current_unsuccessful_fishing_streak", "INT UNSIGNED DEFAULT 0"⟩,
         ⟨"snapshot_total_encounters", "INT UNSIGNED DEFAULT NULL"⟩,
         ⟨"snapshot_total_shiny_encounters", "INT UNSIGNED DEFAULT NULL"⟩,
         ⟨"snapshot_species_encounters", "INT UNSIGNED DEFAULT NULL"⟩,
         ⟨"snapshot_species_shiny_encounters", "INT UNSIGNED DEFAULT NULL"⟩] }
      let s := s.createTable { name := "encounters", columns :=
        [⟨"encounter_id", "INT UNSIGNED PRIMARY KEY"⟩, ⟨"species_id", "INT UNSIGNED NOT NULL"⟩,
         ⟨"personality_value", "INT UNSIGNED NOT NULL"⟩, ⟨"shiny_phase_id", "INT UNSIGNED NOT NULL"⟩,
         ⟨"is_shiny", "INT UNSIGNED DEFAULT 0"⟩, ⟨"is_roamer", "INT UNSIGNED DEFAULT 0"⟩,
         ⟨"matching_custom_catch_filters", "TEXT DEFAULT NULL"⟩, ⟨"encounter_time", "DATETIME NOT NULL"⟩,
         ⟨"map", "TEXT"⟩, ⟨"coordinates", "TEXT"⟩, ⟨"bot_mode", "TEXT"⟩,
         ⟨"type", "TEXT DEFAULT NULL"⟩, ⟨"outcome", "INT UNSIGNED DEFAULT NULL"⟩,
         ⟨"data", "BLOB NOT NULL"⟩] }
      s.createTable { name := "pickup_items", columns :=
        [⟨"item_id", "INT UNSIGNED PRIMARY KEY"⟩, ⟨"item_name", "TEXT NOT NULL"⟩,
         ⟨"times_picked_up", "INT NOT NULL DEFAULT 0"⟩] }
    else s
  let s :=
    if from_schema_version ≤ 1 then
      let s := s.alterTableAdd "shiny_phases" ⟨"pokenav_calls", "INT UNSIGNED DEFAULT 0"⟩
      let s := s.dropTable "base_data"
      s.createTable { name := "base_data", columns :=
        [⟨"data_key", "TEXT PRIMARY KEY"⟩, ⟨"value", "TEXT DEFAULT NULL"⟩] }
    else s
  let s :=
    if from_schema_version ≤ 2 then
      s.alterTableAdd "shiny_phases" ⟨"anti_shiny_encounters", "INT UNSIGNED DEFAULT 0"⟩
    else s
  { s with versionRow := some current_schema_version }

/-! ## The stats engine (StatsDatabase) -/

/-- The store contents behind one profile's `stats.db`: the schema plus the
three relations the claims touch (`pickup_items` and `base_data` are not
referenced by any claim and are left out). The `encounter_summaries`
relation is keyed by its `species_id` primary key. -/
structure Db where
  schema : Schema := {}
  encounters : List EncounterRow := []
  shiny_phases : List PhaseRow := []
  encounter_summaries : Nat → Option SummaryRow := fun _ => none

/-- Caller-owned configuration read by `log_encounter`
(`context.config.logging.log_encounters`). -/
structure Config where
  log_encounters : Bool

/-- The `EncounterInfo` input struct supplied by the caller (external
collaborator, spec section 6). -/
structure EncounterInfo where
  pokemon : Pokemon
  encounter_time : Nat
  catch_filters_result : Option String
  map_name : String
  coordinates : Nat × Nat
  bot_mode : String
  type : Option String
  battle_outcome : Option BattleOutcome
  is_of_interest : Bool

/-- The in-memory state a `StatsDatabase` instance owns, together with the
underlying store. The rolling encounter-rate estimators (two bounded deques
and the two rate attributes, lines 335-360 of stats.py) are presentation
metrics not referenced by any claim and are not carried here. -/
structure StatsState where
  db : Db
  last_encounter : Option Encounter := none
  last_fishing_attempt : Option FishingAttempt := none
  current_shiny_phase : Option ShinyPhase := none
  next_encounter_id : Nat := 1
  encounter_summaries : Nat → Option EncounterSummary := fun _ => none

/-- Exceptions escaping an engine operation: an `AttributeError` on reading
a never-assigned attribute, or the fatal primary-key collision path of
`_handle_sqlite_error` (which terminates the process in the source). -/
inductive PyError where
  | attributeError (attr : String)
  | duplicateEncounterId (id : Nat)
deriving DecidableEq, Repr

/-- Point update of the in-memory summary dictionary. -/
def setSummary (m : Nat → Option EncounterSummary) (key : Nat) (v : EncounterSummary) :
    Nat → Option EncounterSummary :=
  fun k => if k == key then some v else m k

/-- Embedding of `StatsDatabase._get_next_encounter_id`: the largest `encounter_id` in the
store plus one (`ORDER BY encounter_id DESC LIMIT 1`), or 1 when the store
is empty.  This is also exactly what re-opening the store assigns to the
in-memory `_next_encounter_id` counter. -/
def StatsDatabase.get_next_encounter_id (rows : List EncounterRow) : Nat :=
  match rows.foldl (fun acc r => max acc r.encounter_id) 0, rows with
  | _, [] => 1
  | m, _ :: _ => m + 1

/-- Embedding of `StatsDatabase._get_next_shiny_phase_id`. -/
def StatsDatabase.get_next_shiny_phase_id (rows : List PhaseRow) : Nat :=
  match rows.foldl (fun acc r => max acc r.shiny_phase_id) 0, rows with
  | _, [] => 1
  | m, _ :: _ => m + 1

/-- Embedding of `StatsDatabase.log_end_of_battle(battle_outcome, encounter_info)`: sets
the most recent encounter's outcome (in memory and in the store) and, when a
summary exists under the key `last_encounter.species_id` and the encounter
is of interest, lets it count the catch. -/
def StatsDatabase.log_end_of_battle (st : StatsState) (battle_outcome : BattleOutcome)
    (info : EncounterInfo) : StatsState :=
  match st.last_encounter with
  | none => st
  | some last =>
    let last := { last with outcome := some battle_outcome }
    let st := { st with
      last_encounter := some last
      db := { st.db with encounters := st.db.encounters.map (fun (r : EncounterRow) =>
                if r.encounter_id == last.encounter_id then { r with outcome := some battle_outcome }
                else r) } }
    match st.encounter_summaries last.species_id, info.is_of_interest with
    | some s, true =>
      let s := s.update_outcome battle_outcome
      let st := { st with encounter_summaries := setSummary st.encounter_summaries last.species_id s }
      { st with db := { st.db with encounter_summaries := fun k =>
          if k == s.species_id_for_database then some (summaryRowOf s) else st.db.encounter_summaries k } }
    | _, _ => st

/-- Embedding of `StatsDatabase.log_encounter(encounter_info)`, in the source's statement
order: ensure an open phase, build the `Encounter` with the next id, remember
it as `last_encounter`, persist it when the logging policy or the
of-interest flag says so (an id collision is fatal), update the phase and
persist it, create or update the species(-form) summary and persist it,
advance the id counter, and finally replay a pre-known battle outcome.

The returned state holds every mutation made before a raise; the result is
`.error` when the operation raises instead of returning the encounter. -/
def StatsDatabase.log_encounter (cfg : Config) (st : StatsState) (info : EncounterInfo) :
    StatsState × Except PyError Encounter :=
  let (st, phase) :=
    match st.current_shiny_phase with
    | none =>
      let pid := StatsDatabase.get_next_shiny_phase_id st.db.shiny_phases
      let p := ShinyPhase.create pid info.encounter_time
      let newRow : PhaseRow := { shiny_phase_id := pid, start_time := info.encounter_time }
      ({ st with
          current_shiny_phase := some p
          db := { st.db with shiny_phases := st.db.shiny_phases ++ [newRow] } }, p)
    | some p => (st, p)
  let e : Encounter :=
    { encounter_id := st.next_encounter_id
      shiny_phase_id := phase.shiny_phase_id
      matching_custom_catch_filters := info.catch_filters_result
      encounter_time := info.encounter_time
      map := info.map_name
      coordinates := toString info.coordinates.1 ++ ":" ++ toString info.coordinates.2
      bot_mode := info.bot_mode
      type := info.type
      outcome := none
      pokemon := info.pokemon }
  let st := { st with last_encounter := some e }
  let insertion :=
    if cfg.log_encounters || info.is_of_interest then
      if st.db.encounters.any (fun r => r.encounter_id == e.encounter_id) then none
      else some { st with db := { st.db with encounters := st.db.encounters ++ [encounterRowOf e] } }
    else some st
  match insertion with
  | none => (st, .error (.duplicateEncounterId e.encounter_id))
  | some st =>
    let phase := phase.update e
    let st := { st with current_shiny_phase := some phase }
    match updateShinyPhaseValues phase with
    | none => (st, .error (.attributeError "anti_shiny_encounters"))
    | some vals =>
      let st := { st with db :=
        { st.db with shiny_phases := updatePhaseRows st.db.shiny_phases phase.shiny_phase_id vals } }
      let species_index :=
        if e.pokemon.isUnown then 20100 + e.pokemon.unownLetterIndex
        else e.pokemon.speciesIndex
      let summary :=
        match st.encounter_summaries species_index with
        | none => EncounterSummary.create e
        | some s => s.update e
      let st := { st with encounter_summaries := setSummary st.encounter_summaries species_index summary }
      let newSummaryRows : Nat → Option SummaryRow := fun k =>
        if k == summary.species_id_for_database then some (summaryRowOf summary)
        else st.db.encounter_summaries k
      let st := { st with db := { st.db with encounter_summaries := newSummaryRows } }
      let st := { st with next_encounter_id := st.next_encounter_id + 1 }
      match info.battle_outcome with
      | some outcome => (StatsDatabase.log_end_of_battle st outcome info, .ok e)
      | none => (st, .ok e)

/-- The phase-scoped column reset applied to every `encounter_summaries` row
by the UPDATE statements in `clear_current_shiny_phase` and
`_reset_phase_in_database`. -/
def clearSummaryRowPhaseFields (r : SummaryRow) : SummaryRow :=
  { r with
    phase_encounters := 0
    phase_highest_iv_sum := none
    phase_lowest_iv_sum := none
    phase_highest_sv := none
    phase_lowest_sv := none }

/-- The phase-scoped reset applied to every in-memory summary by the loops
in `clear_current_shiny_phase` and `reset_shiny_phase`. -/
def clearSummaryPhaseFields (s : EncounterSummary) : EncounterSummary :=
  { s with
    phase_encounters := 0
    phase_highest_iv_sum := none
    phase_lowest_iv_sum := none
    phase_highest_sv := none
    phase_lowest_sv := none }

/-- Embedding of `StatsDatabase.clear_current_shiny_phase()`: resets the open phase's
counters without closing it (the source assigns the falsy integer 0 to
`shiny_encounter` where phase creation uses `None`; both are embedded as
`none`), then clears the phase-scoped summary columns and the in-memory
summaries' phase fields.  No-op when no phase is open. -/
def StatsDatabase.clear_current_shiny_phase (st : StatsState) (now : Nat) :
    StatsState × Option PyError :=
  match st.current_shiny_phase with
  | none => (st, none)
  | some p =>
    let p := { p with
      start_time := now
      shiny_encounter := none
      encounters := 0
      highest_iv_sum := none
      lowest_iv_sum := none
      highest_sv := none
      lowest_sv := none
      longest_streak := none
      current_streak := none
      fishing_attempts := 0
      successful_fishing_attempts := 0
      longest_unsuccessful_fishing_streak := 0
      current_unsuccessful_fishing_streak := 0
      pokenav_calls := 0 }
    let st := { st with current_shiny_phase := some p }
    match updateShinyPhaseValues p with
    | none => (st, some (.attributeError "anti_shiny_encounters"))
    | some vals =>
      let phases1 := updatePhaseRows st.db.shiny_phases p.shiny_phase_id vals
      let phases2 := phases1.map (fun (r : PhaseRow) =>
        if r.shiny_phase_id == p.shiny_phase_id then { r with start_time := p.start_time } else r)
      let st := { st with db := { st.db with shiny_phases := phases2 } }
      let clearedRows : Nat → Option SummaryRow := fun k =>
        (st.db.encounter_summaries k).map clearSummaryRowPhaseFields
      let st := { st with db := { st.db with encounter_summaries := clearedRows } }
      let clearedSummaries : Nat → Option EncounterSummary := fun k =>
        (st.encounter_summaries k).map clearSummaryPhaseFields
      let st := { st with encounter_summaries := clearedSummaries }
      (st, none)

/-- Embedding of `StatsDatabase.log_fishing_attempt(attempt)`: remembers the attempt,
updates the open phase in memory, and persists the phase only when the
result was not an encounter.  No phase update happens when no phase is
open. -/
def StatsDatabase.log_fishing_attempt (st : StatsState) (attempt : FishingAttempt) :
    StatsState × Option PyError :=
  let st := { st with last_fishing_attempt := some attempt }
  match st.current_shiny_phase with
  | none => (st, none)
  | some p =>
    let p := p.update_fishing_attempt attempt
    let st := { st with current_shiny_phase := some p }
    if attempt.result ≠ FishingResult.Encounter then
      match updateShinyPhaseValues p with
      | none => (st, some (.attributeError "anti_shiny_encounters"))
      | some vals =>
        let phases := updatePhaseRows st.db.shiny_phases p.shiny_phase_id vals
        ({ st with db := { st.db with shiny_phases := phases } }, none)
    else (st, none)

/-! ## Construction: schema check and hydration -/

/-- Larger-id-wins selection of the most recent `encounters` row
(`ORDER BY encounter_id DESC LIMIT 1`). -/
def latestEncounterRow : List EncounterRow → Option EncounterRow
  | [] => none
  | r :: rs =>
    match latestEncounterRow rs with
    | none => some r
    | some m => if m.encounter_id > r.encounter_id then some m else some r

/-- The open-phase row with the largest id
(`end_time IS NULL ORDER BY shiny_phase_id DESC`). -/
def latestOpenPhaseRow (rows : List PhaseRow) : Option PhaseRow :=
  (rows.filter (fun r => r.end_time == none)).foldl
    (fun acc r =>
      match acc with
      | none => some r
      | some m => if m.shiny_phase_id ≥ r.shiny_phase_id then some m else some r)
    none

/-- The `LEFT JOIN encounters ON encounters.encounter_id =
shiny_phases.shiny_encounter_id` of `_query_shiny_phases`. -/
def joinShinyEncounter (db : Db) (r : PhaseRow) : Option Encounter :=
  match r.shiny_encounter_id with
  | none => none
  | some id =>
    (db.encounters.find? (fun er => ((er.encounter_id : Int) == id))).map EncounterRow.toEncounter

/-- Embedding of `StatsDatabase._get_current_shiny_phase`, read through
`_query_shiny_phases` / `ShinyPhase.from_row_data`. -/
def getCurrentShinyPhaseRead (db : Db) : Option ShinyPhaseRead :=
  (latestOpenPhaseRow db.shiny_phases).map
    (fun r => ShinyPhase.from_row_data r.toCells (joinShinyEncounter db r))

/-- Embedding of `StatsDatabase._get_encounter_summaries`: rebuilds each summary from its
row, decoding Unown rows (keys 20100..20199) back to species 201 with a
form letter. -/
def getEncounterSummaries (db : Db) : Nat → Option EncounterSummary :=
  fun sid => (db.encounter_summaries sid).map (fun row =>
    { speciesIndex := if 20100 ≤ sid && sid < 20200 then 201 else sid
      species_form := if 20100 ≤ sid && sid < 20200 then some (sid - 20100) else none
      total_encounters := row.total_encounters
      shiny_encounters := row.shiny_encounters
      catches := row.catches
      total_highest_iv_sum := row.total_highest_iv_sum
      total_lowest_iv_sum := row.total_lowest_iv_sum
      total_highest_sv := row.total_highest_sv
      total_lowest_sv := row.total_lowest_sv
      phase_encounters := row.phase_encounters
      phase_highest_iv_sum := row.phase_highest_iv_sum
      phase_lowest_iv_sum := row.phase_lowest_iv_sum
      phase_highest_sv := row.phase_highest_sv
      phase_lowest_sv := row.phase_lowest_sv
      last_encounter_time := row.last_encounter_time })

/-- The in-memory caches hydrated by `StatsDatabase.__init__` after the
schema check succeeded (lines 57-67 of stats.py; the shortest/longest phase
pointers and the pickup/base-data caches are not referenced by any claim). -/
structure HydratedState where
  last_encounter : Option Encounter
  current_shiny_phase : Option ShinyPhaseRead
  next_encounter_id : Nat
  encounter_summaries : Nat → Option EncounterSummary

/-- The hydration performed by `StatsDatabase.__init__`. -/
def hydrate (db : Db) : HydratedState :=
  { last_encounter := (latestEncounterRow db.encounters).map EncounterRow.toEncounter
    current_shiny_phase := getCurrentShinyPhaseRead db
    next_encounter_id := StatsDatabase.get_next_encounter_id db.encounters
    encounter_summaries := getEncounterSummaries db }

/-- Embedding of `StatsDatabase.__init__(profile)`: reads the stored schema version,
migrates a too-old store forward (the legacy flat-file import runs only when
version is 0 and a legacy `stats` directory exists on disk - a file-system
input outside this model), raises `StatsDatabaseSchemaTooNew` for a too-new
store before loading any state, and otherwise hydrates the caches. -/
def StatsDatabase.init (db : Db) : Except StatsDatabaseSchemaTooNew (Db × HydratedState) :=
  let db_schema_version := StatsDatabase.get_schema_version db.schema
  if db_schema_version < current_schema_version then
    let db := { db with schema := StatsDatabase.update_schema db_schema_version db.schema }
    .ok (db, hydrate db)
  else if db_schema_version > current_schema_version then
    .error { dbVersion := db_schema_version, supportedVersion := current_schema_version }
  else
    .ok (db, hydrate db)

/-- The Schema Manager run as performed by `StatsDatabase.__init__`
(lines 47-55 of stats.py), restricted to its effect on the schema: migrate
when the stored version is behind, fail on a too-new store, otherwise leave
the schema untouched. -/
def runSchemaManager (s : Schema) : Except StatsDatabaseSchemaTooNew Schema :=
  let v := StatsDatabase.get_schema_version s
  if v < current_schema_version then .ok (StatsDatabase.update_schema v s)
  else if v > current_schema_version then
    .error { dbVersion := v, supportedVersion := current_schema_version }
  else .ok s

/-! ## Concrete data used by the claim theorems and witnesses -/

/-- A non-shiny Pikachu-like snapshot (species 25, IV sum 40). -/
def pokeA : Pokemon :=
  { speciesIndex := 25, unownLetterIndex := 0, personalityValue := 12345, ivSum := 40, shinyValue := 5000 }

/-- A second non-shiny species (species 27). -/
def pokeB : Pokemon :=
  { speciesIndex := 27, unownLetterIndex := 0, personalityValue := 23456, ivSum := 30, shinyValue := 6000 }

/-- A shiny snapshot of species 25 (shiny value 3 < 8), IV sum 50. -/
def pokeShiny : Pokemon :=
  { speciesIndex := 25, unownLetterIndex := 0, personalityValue := 34567, ivSum := 50, shinyValue := 3 }

/-- A non-shiny Unown D (species 201, letter index 3). -/
def pokeUnown : Pokemon :=
  { speciesIndex := 201, unownLetterIndex := 3, personalityValue := 45678, ivSum := 20, shinyValue := 7000 }

/-- An encounter of the given snapshot with otherwise fixed descriptors. -/
def encOf (id : Nat) (p : Pokemon) (t : Nat) : Encounter :=
  { encounter_id := id
    shiny_phase_id := 1
    matching_custom_catch_filters := none
    encounter_time := t
    map := "MAP_ROUTE_101"
    coordinates := "3:14"
    bot_mode := "Spin"
    type := none
    outcome := none
    pokemon := p }

/-- An `EncounterInfo` for the given snapshot with otherwise fixed inputs. -/
def infoOf (p : Pokemon) (t : Nat) (ofInterest : Bool) : EncounterInfo :=
  { pokemon := p
    encounter_time := t
    catch_filters_result := none
    map_name := "MAP_ROUTE_101"
    coordinates := (3, 14)
    bot_mode := "Spin"
    type := none
    battle_outcome := none
    is_of_interest := ofInterest }

/-- A store fresh from schema creation: empty relations, version-3 schema. -/
def freshDb : Db := { schema := StatsDatabase.update_schema 0 {} }

/-- The engine state right after opening a fresh store. -/
def freshState : StatsState := { db := freshDb }

/-- A phase holding an (A, 2) current and longest streak. -/
def c6wPhase : ShinyPhase :=
  { shiny_phase_id := 1
    start_time := 0
    current_streak := some { value := 2, speciesIndex := 25, speciesForm := none }
    longest_streak := some { value := 2, speciesIndex := 25, speciesForm := none } }

/-- An open phase with fishing counters mid-flight: 10 attempts, 3
successes, current unsuccessful streak 2, longest 4. -/
def c9wPhase : ShinyPhase :=
  { shiny_phase_id := 1
    start_time := 0
    fishing_attempts := 10
    successful_fishing_attempts := 3
    longest_unsuccessful_fishing_streak := 4
    current_unsuccessful_fishing_streak := 2 }

/-- A state whose open phase is `c9wPhase`. -/
def c9wState : StatsState :=
  { db := { schema := StatsDatabase.update_schema 0 {} }
    current_shiny_phase := some c9wPhase }

/-- A store claiming schema version 4 (newer than this build supports). -/
def dbV4 : Db :=
  { schema :=
    { tables := [{ name := "schema_version", columns := [⟨"version", "INT UNSIGNED"⟩] }]
      versionRow := some 4 } }

/-- A store at exactly the current schema version. -/
def dbV3 : Db := { schema := StatsDatabase.update_schema 0 {} }

/-- Logging everything; the policy flag only gates persistence of the
encounter row. -/
def cfgLogAll : Config := { log_encounters := true }

/-- The first `log_encounter` call on a fresh store. -/
def c1_call1 : StatsState × Except PyError Encounter :=
  StatsDatabase.log_encounter cfgLogAll freshState (infoOf pokeA 100 false)

/-- The second `log_encounter` call, on the state the first one left behind. -/
def c1_call2 : StatsState × Except PyError Encounter :=
  StatsDatabase.log_encounter cfgLogAll c1_call1.1 (infoOf pokeA 200 false)

/-- The summary created by a first non-shiny species-25 encounter:
`phase_highest_iv_sum = some 40`. -/
def summaryA : EncounterSummary := EncounterSummary.create (encOf 1 pokeA 1)

/-- A shiny encounter of species 25 with IV sum 50. -/
def encShiny : Encounter := encOf 2 pokeShiny 2

/-- A logged Unown D encounter. -/
def unownEnc : Encounter := encOf 1 pokeUnown 100

/-- Engine state after an Unown D encounter was logged: the summary sits
under the species-form key `20100 + 3 = 20103`, as `log_encounter` stores
it. -/
def stUnown : StatsState :=
  { db := freshDb
    last_encounter := some unownEnc
    current_shiny_phase := some (ShinyPhase.create 1 100)
    next_encounter_id := 2
    encounter_summaries := fun k => if k == 20103 then some (EncounterSummary.create unownEnc) else none }

/-- The same situation for a regular species (25), whose summary key and
`species_id` coincide. -/
def stPika : StatsState :=
  { db := freshDb
    last_encounter := some (encOf 1 pokeA 100)
    current_shiny_phase := some (ShinyPhase.create 1 100)
    next_encounter_id := 2
    encounter_summaries := fun k => if k == 25 then some (EncounterSummary.create (encOf 1 pokeA 100)) else none }

/-- A phase built by the engine: created empty, updated with one non-shiny
encounter.  Like every `ShinyPhase` the repository ever constructs, it has
no `anti_shiny_encounters` attribute. -/
def phaseP : ShinyPhase := (ShinyPhase.create 1 50).update (encOf 1 pokeA 50)

/-- A hypothetical phase that does carry the `anti_shiny_encounters`
attribute, with the highest-IV-sum record set by species 25 and the
lowest-IV-sum record set by species 30: used to exhibit the
`lowest_iv_sum_species` parameter slip in `_update_shiny_phase`. -/
def phaseQ : ShinyPhase :=
  { shiny_phase_id := 1
    start_time := 0
    highest_iv_sum := some { value := 90, speciesIndex := 25, speciesForm := none }
    lowest_iv_sum := some { value := 10, speciesIndex := 30, speciesForm := none }
    antiShinyEncounters := some 0 }

/-- A fully populated stored phase row with pairwise distinct cell values. -/
def row5 : PhaseRow :=
  { shiny_phase_id := 9
    start_time := 1000
    end_time := some 2000
    shiny_encounter_id := none
    encounters := some 120
    highest_iv_sum := some 91
    highest_iv_sum_species := some 25
    lowest_iv_sum := some 11
    lowest_iv_sum_species := some 27
    highest_sv := some 65000
    highest_sv_species := some 25
    lowest_sv := some 12
    lowest_sv_species := some 27
    longest_streak := some 14
    longest_streak_species := some 25
    current_streak := some 2
    current_streak_species := some 27
    fishing_attempts := some 40
    successful_fishing_attempts := some 18
    longest_unsuccessful_fishing_streak := some 6
    current_unsuccessful_fishing_streak := some 3
    snapshot_total_encounters := some 500
    snapshot_total_shiny_encounters := some 4
    snapshot_species_encounters := some 200
    snapshot_species_shiny_encounters := some 2
    pokenav_calls := some 7
    anti_shiny_encounters := some 5 }

/-- An open phase that has counted 50 encounters. -/
def phase50 : ShinyPhase := { shiny_phase_id := 1, start_time := 100, encounters := 50 }

/-- A summary with lifetime total 50 and 5 encounters in the current
phase. -/
def summary50 : EncounterSummary :=
  { speciesIndex := 25
    species_form := none
    total_encounters := 50
    shiny_encounters := 0
    catches := 2
    total_highest_iv_sum := 40
    total_lowest_iv_sum := 10
    total_highest_sv := 60000
    total_lowest_sv := 900
    phase_encounters := 5
    phase_highest_iv_sum := some 40
    phase_lowest_iv_sum := some 12
    phase_highest_sv := some 60000
    phase_lowest_sv := some 1200
    last_encounter_time := 90 }

/-- State with the open 50-encounter phase and the species-25 summary. -/
def st50 : StatsState :=
  { db := freshDb
    current_shiny_phase := some phase50
    next_encounter_id := 51
    encounter_summaries := fun k => if k == 25 then some summary50 else none }

/-- A state with no open phase. -/
def stNoPhase : StatsState := { db := freshDb }

/-- The result of `clear_current_shiny_phase` on `st50` at time 999. -/
def c10_result : StatsState × Option PyError :=
  StatsDatabase.clear_current_shiny_phase st50 999

/-- The species sequence [A, A, B, A, A, A] of the claim, replayed through
`ShinyPhase.update` on a fresh phase. -/
def streakScenario : ShinyPhase :=
  [encOf 1 pokeA 1, encOf 2 pokeA 2, encOf 3 pokeB 3, encOf 4 pokeA 4, encOf 5 pokeA 5,
   encOf 6 pokeA 6].foldl ShinyPhase.update (ShinyPhase.create 1 0)

/-- C1: on a fresh store, both the first and the second `log_encounter` call
assign encounter id 1 - the ids do not strictly increase.  The first call
builds and persists encounter 1 but then raises `AttributeError` in
`_update_shiny_phase` (reading the never-assigned
`shiny_phase.anti_shiny_encounters`), so `_next_encounter_id` is never
incremented; the second call assigns id 1 again and dies on the primary-key
collision.  The restart arithmetic itself (`_get_next_encounter_id`: 1 on an
empty store, max+1 otherwise) is as claimed. -/
theorem c1_encounter_ids_do_not_increase :
    (c1_call1.1.last_encounter.map (·.encounter_id)) = some 1 ∧
    c1_call1.2 = .error (.attributeError "anti_shiny_encounters") ∧
    c1_call1.1.next_encounter_id = 1 ∧
    (c1_call2.1.last_encounter.map (·.encounter_id)) = some 1 ∧
    c1_call2.2 = .error (.duplicateEncounterId 1) ∧
    StatsDatabase.get_next_encounter_id [] = 1 ∧
    StatsDatabase.get_next_encounter_id [encounterRowOf (encOf 7 pokeA 1)] = 8 :=
  ⟨rfl, rfl, rfl, rfl, rfl, rfl, rfl⟩

/-- C2: one encounter of species 25 replayed through `log_encounter` on a
fresh store leaves no `EncounterSummary` for species 25 at all (claimed:
`total_encounters = 1`): the call raises `AttributeError` in
`_update_shiny_phase` before the summary dictionary is touched. -/
theorem c2_summary_never_updated :
    (c1_call1.1.encounter_summaries 25) = none ∧
    c1_call1.2 = .error (.attributeError "anti_shiny_encounters") :=
  ⟨rfl, rfl⟩

/-- C3 counterexample: a shiny encounter does NOT leave all four phase-scoped
high/low fields of `EncounterSummary.update` unchanged - it moves
`phase_highest_iv_sum` (and `phase_lowest_iv_sum`) exactly like a non-shiny
encounter; only the two shiny-value fields are gated on non-shininess. -/
theorem c3_counterexample :
    encShiny.is_shiny = true ∧
    summaryA.phase_highest_iv_sum = some 40 ∧
    (summaryA.update encShiny).phase_highest_iv_sum = some 50 ∧
    (summaryA.update encShiny).phase_highest_iv_sum ≠ summaryA.phase_highest_iv_sum := by
  refine ⟨rfl, rfl, rfl, ?_⟩
  decide

/-- Statements 1-8 of `EncounterSummary.update` leave `phase_highest_sv`
untouched. -/
theorem updStep1_phsv (e : Encounter) (t : EncounterSummary) :
    (EncounterSummary.updStep1 e t).phase_highest_sv = t.phase_highest_sv := rfl

theorem updStep2_phsv (e : Encounter) (t : EncounterSummary) :
    (EncounterSummary.updStep2 e t).phase_highest_sv = t.phase_highest_sv := by
  unfold EncounterSummary.updStep2; split <;> rfl

theorem updStep3_phsv (e : Encounter) (t : EncounterSummary) :
    (EncounterSummary.updStep3 e t).phase_highest_sv = t.phase_highest_sv := by
  unfold EncounterSummary.updStep3; split <;> rfl

theorem updStep4_phsv (e : Encounter) (t : EncounterSummary) :
    (EncounterSummary.updStep4 e t).phase_highest_sv = t.phase_highest_sv := by
  unfold EncounterSummary.updStep4; split <;> rfl

theorem updStep5_phsv (e : Encounter) (t : EncounterSummary) :
    (EncounterSummary.updStep5 e t).phase_highest_sv = t.phase_highest_sv := by
  unfold EncounterSummary.updStep5; split <;> rfl

theorem updStep6_phsv (e : Encounter) (t : EncounterSummary) :
    (EncounterSummary.updStep6 e t).phase_highest_sv = t.phase_highest_sv := rfl

theorem updStep7_phsv (e : Encounter) (t : EncounterSummary) :
    (EncounterSummary.updStep7 e t).phase_highest_sv = t.phase_highest_sv := by
  unfold EncounterSummary.updStep7; split <;> rfl

theorem updStep8_phsv (e : Encounter) (t : EncounterSummary) :
    (EncounterSummary.updStep8 e t).phase_highest_sv = t.phase_highest_sv := by
  unfold EncounterSummary.updStep8; split <;> rfl

/-- Statements 1-8 of `EncounterSummary.update` leave `phase_lowest_sv`
untouched. -/
theorem updStep1_plsv (e : Encounter) (t : EncounterSummary) :
    (EncounterSummary.updStep1 e t).phase_lowest_sv = t.phase_lowest_sv := rfl

theorem updStep2_plsv (e : Encounter) (t : EncounterSummary) :
    (EncounterSummary.updStep2 e t).phase_lowest_sv = t.phase_lowest_sv := by
  unfold EncounterSummary.updStep2; split <;> rfl

theorem updStep3_plsv (e : Encounter) (t : EncounterSummary) :
    (EncounterSummary.updStep3 e t).phase_lowest_sv = t.phase_lowest_sv := by
  unfold EncounterSummary.updStep3; split <;> rfl

theorem updStep4_plsv (e : Encounter) (t : EncounterSummary) :
    (EncounterSummary.updStep4 e t).phase_lowest_sv = t.phase_lowest_sv := by
  unfold EncounterSummary.updStep4; split <;> rfl

theorem updStep5_plsv (e : Encounter) (t : EncounterSummary) :
    (EncounterSummary.updStep5 e t).phase_lowest_sv = t.phase_lowest_sv := by
  unfold EncounterSummary.updStep5; split <;> rfl

theorem updStep6_plsv (e : Encounter) (t : EncounterSummary) :
    (EncounterSummary.updStep6 e t).phase_lowest_sv = t.phase_lowest_sv := rfl

theorem updStep7_plsv (e : Encounter) (t : EncounterSummary) :
    (EncounterSummary.updStep7 e t).phase_lowest_sv = t.phase_lowest_sv := by
  unfold EncounterSummary.updStep7; split <;> rfl

theorem updStep8_plsv (e : Encounter) (t : EncounterSummary) :
    (EncounterSummary.updStep8 e t).phase_lowest_sv = t.phase_lowest_sv := by
  unfold EncounterSummary.updStep8; split <;> rfl

/-- Statements of `EncounterSummary.update` other than the
`phase_highest_iv_sum` one leave `phase_highest_iv_sum` untouched. -/
theorem updStep1_phiv (e : Encounter) (t : EncounterSummary) :
    (EncounterSummary.updStep1 e t).phase_highest_iv_sum = t.phase_highest_iv_sum := rfl

theorem updStep2_phiv (e : Encounter) (t : EncounterSummary) :
    (EncounterSummary.updStep2 e t).phase_highest_iv_sum = t.phase_highest_iv_sum := by
  unfold EncounterSummary.updStep2; split <;> rfl

theorem updStep3_phiv (e : Encounter) (t : EncounterSummary) :
    (EncounterSummary.updStep3 e t).phase_highest_iv_sum = t.phase_highest_iv_sum := by
  unfold EncounterSummary.updStep3; split <;> rfl

theorem updStep4_phiv (e : Encounter) (t : EncounterSummary) :
    (EncounterSummary.updStep4 e t).phase_highest_iv_sum = t.phase_highest_iv_sum := by
  unfold EncounterSummary.updStep4; split <;> rfl

theorem updStep5_phiv (e : Encounter) (t : EncounterSummary) :
    (EncounterSummary.updStep5 e t).phase_highest_iv_sum = t.phase_highest_iv_sum := by
  unfold EncounterSummary.updStep5; split <;> rfl

theorem updStep6_phiv (e : Encounter) (t : EncounterSummary) :
    (EncounterSummary.updStep6 e t).phase_highest_iv_sum = t.phase_highest_iv_sum := rfl

theorem updStep8_phiv (e : Encounter) (t : EncounterSummary) :
    (EncounterSummary.updStep8 e t).phase_highest_iv_sum = t.phase_highest_iv_sum := by
  unfold EncounterSummary.updStep8; split <;> rfl

theorem updStep9_phiv (e : Encounter) (t : EncounterSummary) :
    (EncounterSummary.updStep9 e t).phase_highest_iv_sum = t.phase_highest_iv_sum := by
  unfold EncounterSummary.updStep9
  dsimp only
  repeat' split
  all_goals rfl

/-- Statements of `EncounterSummary.update` other than the
`phase_lowest_iv_sum` one leave `phase_lowest_iv_sum` untouched. -/
theorem updStep1_pliv (e : Encounter) (t : EncounterSummary) :
    (EncounterSummary.updStep1 e t).phase_lowest_iv_sum = t.phase_lowest_iv_sum := rfl

theorem updStep2_pliv (e : Encounter) (t : EncounterSummary) :
    (EncounterSummary.updStep2 e t).phase_lowest_iv_sum = t.phase_lowest_iv_sum := by
  unfold EncounterSummary.updStep2; split <;> rfl

theorem updStep3_pliv (e : Encounter) (t : EncounterSummary) :
    (EncounterSummary.updStep3 e t).phase_lowest_iv_sum = t.phase_lowest_iv_sum := by
  unfold EncounterSummary.updStep3; split <;> rfl

theorem updStep4_pliv (e : Encounter) (t : EncounterSummary) :
    (EncounterSummary.updStep4 e t).phase_lowest_iv_sum = t.phase_lowest_iv_sum := by
  unfold EncounterSummary.updStep4; split <;> rfl

theorem updStep5_pliv (e : Encounter) (t : EncounterSummary) :
    (EncounterSummary.updStep5 e t).phase_lowest_iv_sum = t.phase_lowest_iv_sum := by
  unfold EncounterSummary.updStep5; split <;> rfl

theorem updStep6_pliv (e : Encounter) (t : EncounterSummary) :
    (EncounterSummary.updStep6 e t).phase_lowest_iv_sum = t.phase_lowest_iv_sum := rfl

theorem updStep7_pliv (e : Encounter) (t : EncounterSummary) :
    (EncounterSummary.updStep7 e t).phase_lowest_iv_sum = t.phase_lowest_iv_sum := by
  unfold EncounterSummary.updStep7; split <;> rfl

theorem updStep9_pliv (e : Encounter) (t : EncounterSummary) :
    (EncounterSummary.updStep9 e t).phase_lowest_iv_sum = t.phase_lowest_iv_sum := by
  unfold EncounterSummary.updStep9
  dsimp only
  repeat' split
  all_goals rfl

/-- The `phase_highest_iv_sum` statement implements the running-maximum
rule (None counts as minus infinity; ties keep the old value). -/
theorem updStep7_phiv_rule (e : Encounter) (t : EncounterSummary) :
    (EncounterSummary.updStep7 e t).phase_highest_iv_sum = some (
      match t.phase_highest_iv_sum with
      | none => e.iv_sum
      | some v => max v e.iv_sum) := by
  unfold EncounterSummary.updStep7
  cases hv : t.phase_highest_iv_sum with
  | none => simp [hv]
  | some v =>
    by_cases hlt : v < e.iv_sum <;> simp [hv, hlt] <;> omega

/-- The `phase_lowest_iv_sum` statement implements the running-minimum
rule. -/
theorem updStep8_pliv_rule (e : Encounter) (t : EncounterSummary) :
    (EncounterSummary.updStep8 e t).phase_lowest_iv_sum = some (
      match t.phase_lowest_iv_sum with
      | none => e.iv_sum
      | some v => min v e.iv_sum) := by
  unfold EncounterSummary.updStep8
  cases hv : t.phase_lowest_iv_sum with
  | none => simp [hv]
  | some v =>
    by_cases hgt : v > e.iv_sum <;> simp [hv, hgt] <;> omega

/-- C3 (amended): for every encounter applied via `create` or `update`, the
phase-scoped shiny-value fields (`phase_highest_sv`, `phase_lowest_sv`) are
only updated when the encounter is not shiny - a shiny encounter leaves both
unchanged in `update` - and `create` of a shiny encounter sets all four
phase-scoped high/low fields to None; the phase-scoped IV-sum fields,
however, are moved by `update` through the usual running max/min rule for
every encounter, shiny or not. -/
theorem c3_amended (s : EncounterSummary) (e : Encounter) (h : e.is_shiny = true) :
    (s.update e).phase_highest_sv = s.phase_highest_sv ∧
    (s.update e).phase_lowest_sv = s.phase_lowest_sv ∧
    (∀ (t : EncounterSummary) (f : Encounter),
      (t.update f).phase_highest_iv_sum = some (
        match t.phase_highest_iv_sum with
        | none => f.iv_sum
        | some v => max v f.iv_sum) ∧
      (t.update f).phase_lowest_iv_sum = some (
        match t.phase_lowest_iv_sum with
        | none => f.iv_sum
        | some v => min v f.iv_sum)) ∧
    (EncounterSummary.create e).phase_highest_iv_sum = none ∧
    (EncounterSummary.create e).phase_lowest_iv_sum = none ∧
    (EncounterSummary.create e).phase_highest_sv = none ∧
    (EncounterSummary.create e).phase_lowest_sv = none := by
  have hrule : ∀ (t : EncounterSummary) (f : Encounter),
      (t.update f).phase_highest_iv_sum = some (
        match t.phase_highest_iv_sum with
        | none => f.iv_sum
        | some v => max v f.iv_sum) ∧
      (t.update f).phase_lowest_iv_sum = some (
        match t.phase_lowest_iv_sum with
        | none => f.iv_sum
        | some v => min v f.iv_sum) := by
    intro t f
    constructor
    · simp only [EncounterSummary.update, updStep9_phiv, updStep8_phiv, updStep7_phiv_rule,
        updStep6_phiv, updStep5_phiv, updStep4_phiv, updStep3_phiv, updStep2_phiv,
        updStep1_phiv]
    · simp only [EncounterSummary.update, updStep9_pliv, updStep8_pliv_rule, updStep7_pliv,
        updStep6_pliv, updStep5_pliv, updStep4_pliv, updStep3_pliv, updStep2_pliv,
        updStep1_pliv]
  have h9 : ∀ t : EncounterSummary, EncounterSummary.updStep9 e t
      = { t with shiny_encounters := t.shiny_encounters + 1 } := by
    intro t
    unfold EncounterSummary.updStep9
    simp only [h, Bool.not_true, Bool.false_eq_true, reduceIte]
  refine ⟨?_, ?_, hrule, ?_, ?_, ?_, ?_⟩
  · simp [EncounterSummary.update, h9, updStep1_phsv, updStep2_phsv, updStep3_phsv,
      updStep4_phsv, updStep5_phsv, updStep6_phsv, updStep7_phsv, updStep8_phsv]
  · simp [EncounterSummary.update, h9, updStep1_plsv, updStep2_plsv, updStep3_plsv,
      updStep4_plsv, updStep5_plsv, updStep6_plsv, updStep7_plsv, updStep8_plsv]
  all_goals simp only [EncounterSummary.create, h, Bool.not_true, Bool.false_eq_true, reduceIte]

/-- Witness for `c3_amended` at the concrete shiny encounter `encShiny`
(IV sum 50) and summary `summaryA` (both phase IV-sum fields at 40): the SV
fields stay, the IV-sum fields follow max/min, and `create` yields None. -/
theorem c3_amended_witness :
    encShiny.is_shiny = true ∧
    (summaryA.update encShiny).phase_highest_sv = summaryA.phase_highest_sv ∧
    (summaryA.update encShiny).phase_lowest_sv = summaryA.phase_lowest_sv ∧
    (summaryA.update encShiny).phase_highest_iv_sum = some 50 ∧
    (summaryA.update encShiny).phase_lowest_iv_sum = some 40 ∧
    (EncounterSummary.create encShiny).phase_highest_iv_sum = none ∧
    (EncounterSummary.create encShiny).phase_lowest_iv_sum = none ∧
    (EncounterSummary.create encShiny).phase_highest_sv = none ∧
    (EncounterSummary.create encShiny).phase_lowest_sv = none :=
  have hc := c3_amended summaryA encShiny (by decide)
  have hr := hc.2.2.1 summaryA encShiny
  ⟨by decide, hc.1, hc.2.1, hr.1.trans (by decide), hr.2.trans (by decide),
   hc.2.2.2.1, hc.2.2.2.2.1, hc.2.2.2.2.2.1, hc.2.2.2.2.2.2⟩

/-- C4: `log_end_of_battle` with outcome Caught on an of-interest Unown
encounter does NOT increment the catches counter of the Unown summary:
the lookup key is `last_encounter.species_id` (the raw species index, 201),
while the summary is stored under the species-form key 20103, so the
summary branch is skipped entirely.  The outcome itself is stored, and for
a regular species (matching keys) the same call does count the catch. -/
theorem c4_unown_catches_not_counted :
    ((StatsDatabase.log_end_of_battle stUnown BattleOutcome.Caught
        (infoOf pokeUnown 100 true)).encounter_summaries 20103).map (·.catches) = some 0 ∧
    (StatsDatabase.log_end_of_battle stUnown BattleOutcome.Caught
        (infoOf pokeUnown 100 true)).encounter_summaries 201 = none ∧
    ((StatsDatabase.log_end_of_battle stUnown BattleOutcome.Caught
        (infoOf pokeUnown 100 true)).last_encounter.map (·.outcome))
      = some (some BattleOutcome.Caught) ∧
    unownEnc.species_id = 201 ∧
    (EncounterSummary.create unownEnc).species_id_for_database = 20103 ∧
    ((StatsDatabase.log_end_of_battle stPika BattleOutcome.Caught
        (infoOf pokeA 100 true)).encounter_summaries 25).map (·.catches) = some 1 :=
  ⟨rfl, rfl, rfl, rfl, rfl, rfl⟩

/-- C5: the phase round-trip is broken three times over.  (1) Writing any
engine-built phase fails: `_update_shiny_phase` reads the never-assigned
`anti_shiny_encounters` attribute (AttributeError).  (2) Even reading back a
well-formed version-3 row garbles the fields, because `from_row_data` still
indexes the pre-version-3 layout while the SELECT emits
`anti_shiny_encounters` at index 5: the highest-IV-sum record comes back
with the anti-shiny count as its value and the IV sum as its species, and
`pokenav_calls` comes back as the current unsuccessful fishing streak.
(3) Even granting the attribute, the write stores the highest-IV-sum
record's species into the `lowest_iv_sum_species` column. -/
theorem c5_phase_round_trip_broken :
    updateShinyPhaseValues phaseP = none ∧
    (ShinyPhase.from_row_data row5.toCells none).pokenav_calls = some 3 ∧
    row5.pokenav_calls = some 7 ∧
    (ShinyPhase.from_row_data row5.toCells none).highest_iv_sum
      = some { value := some 5, speciesIndex := 91, speciesForm := none } ∧
    row5.highest_iv_sum = some 91 ∧
    row5.anti_shiny_encounters = some 5 ∧
    (ShinyPhase.from_row_data row5.toCells none).fishing_attempts = some 27 ∧
    row5.fishing_attempts = some 40 ∧
    (updateShinyPhaseValues phaseQ).map (fun v => v.getD 5 none) = some (some 25) ∧
    (phaseQ.lowest_iv_sum.map (·.speciesIndex)) = some 30 :=
  ⟨rfl, rfl, rfl, rfl, rfl, rfl, rfl, rfl, rfl, rfl⟩

/-- C10: with an open phase, `clear_current_shiny_phase` does reset the
phase's counters (encounters to 0) and its start time in memory without
closing it, but it does NOT zero the summaries' phase-scoped fields: the
call raises `AttributeError` inside `_update_shiny_phase` (the
never-assigned `anti_shiny_encounters` attribute) before the summary-reset
statements run.  The lifetime fields are indeed untouched, and with no open
phase the call is a no-op. -/
theorem c10_clear_aborts_before_summary_reset :
    (c10_result.1.current_shiny_phase.map (·.encounters)) = some 0 ∧
    (c10_result.1.current_shiny_phase.map (·.start_time)) = some 999 ∧
    (c10_result.1.current_shiny_phase.map (·.end_time)) = some none ∧
    ((c10_result.1.encounter_summaries 25).map (·.phase_encounters)) = some 5 ∧
    ((c10_result.1.encounter_summaries 25).map (·.phase_highest_iv_sum)) = some (some 40) ∧
    ((c10_result.1.encounter_summaries 25).map (·.total_encounters)) = some 50 ∧
    c10_result.2 = some (.attributeError "anti_shiny_encounters") ∧
    StatsDatabase.clear_current_shiny_phase stNoPhase 999 = (stNoPhase, none) :=
  ⟨rfl, rfl, rfl, rfl, rfl, rfl, rfl, rfl⟩

/-- Statements 1-4 of `ShinyPhase.update` leave `current_streak` untouched. -/
theorem phStep1_cur (e : Encounter) (p : ShinyPhase) :
    (ShinyPhase.updStep1 e p).current_streak = p.current_streak := rfl

theorem phStep2_cur (e : Encounter) (p : ShinyPhase) :
    (ShinyPhase.updStep2 e p).current_streak = p.current_streak := by
  unfold ShinyPhase.updStep2; split <;> rfl

theorem phStep3_cur (e : Encounter) (p : ShinyPhase) :
    (ShinyPhase.updStep3 e p).current_streak = p.current_streak := by
  unfold ShinyPhase.updStep3; split <;> rfl

theorem phStep4_cur (e : Encounter) (p : ShinyPhase) :
    (ShinyPhase.updStep4 e p).current_streak = p.current_streak := by
  unfold ShinyPhase.updStep4
  dsimp only
  repeat' split
  all_goals rfl

/-- Statements 1-4 of `ShinyPhase.update` leave `longest_streak` untouched. -/
theorem phStep1_long (e : Encounter) (p : ShinyPhase) :
    (ShinyPhase.updStep1 e p).longest_streak = p.longest_streak := rfl

theorem phStep2_long (e : Encounter) (p : ShinyPhase) :
    (ShinyPhase.updStep2 e p).longest_streak = p.longest_streak := by
  unfold ShinyPhase.updStep2; split <;> rfl

theorem phStep3_long (e : Encounter) (p : ShinyPhase) :
    (ShinyPhase.updStep3 e p).longest_streak = p.longest_streak := by
  unfold ShinyPhase.updStep3; split <;> rfl

theorem phStep4_long (e : Encounter) (p : ShinyPhase) :
    (ShinyPhase.updStep4 e p).longest_streak = p.longest_streak := by
  unfold ShinyPhase.updStep4
  dsimp only
  repeat' split
  all_goals rfl

/-- The `current_streak` statement of `ShinyPhase.update` resets the streak
to value 1 exactly when no streak exists or the species(-form) changed, and
increments it otherwise. -/
theorem phStep5_cur (e : Encounter) (p : ShinyPhase) :
    (ShinyPhase.updStep5 e p).current_streak = some (
      match p.current_streak with
      | none => SpeciesRecord.create 1 e.pokemon
      | some r =>
          if r.is_same_species e.pokemon then { r with value := r.value + 1 }
          else SpeciesRecord.create 1 e.pokemon) := by
  unfold ShinyPhase.updStep5
  cases hc : p.current_streak with
  | none => rfl
  | some r =>
    by_cases hs : r.is_same_species e.pokemon = true <;> simp [hs]

theorem phStep5_long (e : Encounter) (p : ShinyPhase) :
    (ShinyPhase.updStep5 e p).longest_streak = p.longest_streak := by
  unfold ShinyPhase.updStep5
  repeat' split
  all_goals rfl

/-- The `longest_streak` statement copies the current streak on strict
improvement and keeps the previous record otherwise. -/
theorem phStep6_cur (e : Encounter) (p : ShinyPhase) :
    (ShinyPhase.updStep6 e p).current_streak = p.current_streak := by
  unfold ShinyPhase.updStep6; split <;> rfl

theorem phStep6_long (e : Encounter) (p : ShinyPhase) :
    (ShinyPhase.updStep6 e p).longest_streak =
      if p.longest_streak.isNone ||
         (p.current_streak.map (·.value)).getD 0 > (p.longest_streak.map (·.value)).getD 0 then
        p.current_streak.map SpeciesRecord.copy
      else p.longest_streak := by
  unfold ShinyPhase.updStep6; split <;> simp_all

set_option maxRecDepth 8192 in
/-- C6: `current_streak` is a same-species run counter - reset to a record
of value 1 when the species-form changes (or no streak exists yet),
incremented by 1 otherwise - and `longest_streak` is the maximum-so-far copy
of `current_streak` (strict improvement replaces it, otherwise the old
record stays).  In particular, after the species sequence [A, A, B, A, A, A]
the current streak is (A, 3) and the longest streak is (A, 3). -/
theorem c6_streak_counter (p : ShinyPhase) (e : Encounter) :
    ((p.update e).current_streak = some (
      match p.current_streak with
      | none => SpeciesRecord.create 1 e.pokemon
      | some r =>
          if r.is_same_species e.pokemon then { r with value := r.value + 1 }
          else SpeciesRecord.create 1 e.pokemon)) ∧
    (∀ c, (p.update e).current_streak = some c →
      ((p.longest_streak.map (·.value)).getD 0 < c.value →
        (p.update e).longest_streak = some c) ∧
      (∀ l, p.longest_streak = some l → c.value ≤ l.value →
        (p.update e).longest_streak = some l)) ∧
    streakScenario.current_streak = some { value := 3, speciesIndex := 25, speciesForm := none } ∧
    streakScenario.longest_streak = some { value := 3, speciesIndex := 25, speciesForm := none } := by
  have hcur : (p.update e).current_streak = (ShinyPhase.updStep5 e
      (ShinyPhase.updStep4 e (ShinyPhase.updStep3 e (ShinyPhase.updStep2 e
        (ShinyPhase.updStep1 e p))))).current_streak := by
    simp only [ShinyPhase.update, phStep6_cur]
  have hcur2 : (p.update e).current_streak = some (
      match p.current_streak with
      | none => SpeciesRecord.create 1 e.pokemon
      | some r =>
          if r.is_same_species e.pokemon then { r with value := r.value + 1 }
          else SpeciesRecord.create 1 e.pokemon) := by
    rw [hcur, phStep5_cur, phStep4_cur, phStep3_cur, phStep2_cur, phStep1_cur]
  refine ⟨hcur2, ?_, by decide, by decide⟩
  intro c hc
  have hlong : (p.update e).longest_streak =
      if p.longest_streak.isNone ||
         ((p.update e).current_streak.map (·.value)).getD 0 >
           (p.longest_streak.map (·.value)).getD 0 then
        (p.update e).current_streak.map SpeciesRecord.copy
      else p.longest_streak := by
    conv =>
      lhs
      rw [show (p.update e).longest_streak = (ShinyPhase.updStep6 e
        (ShinyPhase.updStep5 e (ShinyPhase.updStep4 e (ShinyPhase.updStep3 e
          (ShinyPhase.updStep2 e (ShinyPhase.updStep1 e p)))))).longest_streak from rfl]
    rw [phStep6_long]
    rw [phStep5_long, phStep4_long, phStep3_long, phStep2_long, phStep1_long]
    have : (p.update e).current_streak = (ShinyPhase.updStep5 e
        (ShinyPhase.updStep4 e (ShinyPhase.updStep3 e (ShinyPhase.updStep2 e
          (ShinyPhase.updStep1 e p))))).current_streak := by
      simp only [ShinyPhase.update, phStep6_cur]
    rw [← this]
  constructor
  · intro hlt
    rw [hlong, hc]
    cases hl : p.longest_streak with
    | none => simp [SpeciesRecord.copy]
    | some l =>
      rw [hl] at hlt
      simp only [Option.map_some', Option.getD_some] at hlt
      simp [SpeciesRecord.copy, hlt]
  · intro l hl hle
    rw [hlong, hc, hl]
    have hnot : ¬ (l.value < c.value) := by omega
    simp [hnot]

/-- Witness for `c6_streak_counter` at a phase holding an (A, 2) streak and
one more encounter of species A. -/
theorem c6_streak_counter_witness :
    (c6wPhase.update (encOf 7 pokeA 7)).current_streak
        = some { value := 3, speciesIndex := 25, speciesForm := none } ∧
    (c6wPhase.update (encOf 7 pokeA 7)).longest_streak
        = some { value := 3, speciesIndex := 25, speciesForm := none } :=
  have h := c6_streak_counter c6wPhase (encOf 7 pokeA 7)
  have hcur : (c6wPhase.update (encOf 7 pokeA 7)).current_streak
      = some { value := 3, speciesIndex := 25, speciesForm := none } :=
    h.1.trans (by decide)
  ⟨hcur, (h.2.1 _ hcur).1 (by decide)⟩

/-- C9: `log_fishing_attempt` leaves the phase (and with it all phase
counters) untouched when none is open; with an open phase it increments
`fishing_attempts`, and an `Encounter` result increments
`successful_fishing_attempts` and resets the unsuccessful streak to 0 while
any other result increments the unsuccessful streak and folds it into the
longest one by maximum. -/
theorem c9_log_fishing_attempt (st : StatsState) (a : FishingAttempt) :
    (st.current_shiny_phase = none →
      (StatsDatabase.log_fishing_attempt st a).1.current_shiny_phase = none) ∧
    (∀ p, st.current_shiny_phase = some p →
      (StatsDatabase.log_fishing_attempt st a).1.current_shiny_phase
        = some (p.update_fishing_attempt a) ∧
      (p.update_fishing_attempt a).fishing_attempts = p.fishing_attempts + 1 ∧
      (a.result = FishingResult.Encounter →
        (p.update_fishing_attempt a).successful_fishing_attempts
          = p.successful_fishing_attempts + 1 ∧
        (p.update_fishing_attempt a).current_unsuccessful_fishing_streak = 0 ∧
        (p.update_fishing_attempt a).longest_unsuccessful_fishing_streak
          = p.longest_unsuccessful_fishing_streak) ∧
      (a.result ≠ FishingResult.Encounter →
        (p.update_fishing_attempt a).current_unsuccessful_fishing_streak
          = p.current_unsuccessful_fishing_streak + 1 ∧
        (p.update_fishing_attempt a).successful_fishing_attempts
          = p.successful_fishing_attempts ∧
        (p.update_fishing_attempt a).longest_unsuccessful_fishing_streak
          = max p.longest_unsuccessful_fishing_streak
              (p.current_unsuccessful_fishing_streak + 1))) := by
  constructor
  · intro h
    unfold StatsDatabase.log_fishing_attempt
    simp only [h]
  · intro p hp
    refine ⟨?_, ?_, ?_, ?_⟩
    · unfold StatsDatabase.log_fishing_attempt
      simp only [hp]
      split
      · split
        · rfl
        · rfl
      · rfl
    · unfold ShinyPhase.update_fishing_attempt
      dsimp only
      repeat' split
      all_goals rfl
    · intro ha
      unfold ShinyPhase.update_fishing_attempt
      dsimp only
      simp [ha]
    · intro ha
      unfold ShinyPhase.update_fishing_attempt
      dsimp only
      rw [if_pos ha]
      refine ⟨?_, ?_, ?_⟩ <;> (split <;> (try rfl))
      all_goals (dsimp only; omega)

/-- Witness for `c9_log_fishing_attempt`: a failed attempt on an open phase
with a 2-long current and 4-long longest unsuccessful streak, and a no-phase
state. -/
theorem c9_log_fishing_attempt_witness :
    (stNoPhase.current_shiny_phase = none ∧
      (StatsDatabase.log_fishing_attempt stNoPhase { rod := 0, result := .Unsuccessful }).1.current_shiny_phase = none) ∧
    (c9wState.current_shiny_phase = some c9wPhase ∧
      (c9wPhase.update_fishing_attempt { rod := 0, result := .Unsuccessful }).fishing_attempts
        = c9wPhase.fishing_attempts + 1 ∧
      (c9wPhase.update_fishing_attempt { rod := 0, result := .Unsuccessful }).current_unsuccessful_fishing_streak
        = c9wPhase.current_unsuccessful_fishing_streak + 1 ∧
      (c9wPhase.update_fishing_attempt { rod := 0, result := .Unsuccessful }).longest_unsuccessful_fishing_streak
        = max c9wPhase.longest_unsuccessful_fishing_streak
            (c9wPhase.current_unsuccessful_fishing_streak + 1)) :=
  have h1 := (c9_log_fishing_attempt stNoPhase { rod := 0, result := .Unsuccessful }).1 rfl
  have h2 := (c9_log_fishing_attempt c9wState { rod := 0, result := .Unsuccessful }).2 c9wPhase rfl
  have h3 := h2.2.2.2 (by decide)
  ⟨⟨rfl, h1⟩, ⟨rfl, h2.2.1, h3.1, h3.2.2⟩⟩

/-- C7: opening a store whose stored schema version exceeds the supported
version 3 fails with the distinguished `StatsDatabaseSchemaTooNew` error -
no migration runs and no state is hydrated - while opening a store at
exactly the current version performs no migration (the store comes back
unchanged) and hydrates the caches. -/
theorem c7_schema_too_new_gate (db : Db) :
    (StatsDatabase.get_schema_version db.schema > current_schema_version →
      StatsDatabase.init db = .error
        { dbVersion := StatsDatabase.get_schema_version db.schema
          supportedVersion := current_schema_version }) ∧
    (StatsDatabase.get_schema_version db.schema = current_schema_version →
      StatsDatabase.init db = .ok (db, hydrate db)) := by
  constructor
  · intro h
    have h1 : ¬ (StatsDatabase.get_schema_version db.schema < current_schema_version) := by omega
    unfold StatsDatabase.init
    rw [if_neg h1, if_pos h]
  · intro h
    have h1 : ¬ (StatsDatabase.get_schema_version db.schema < current_schema_version) := by omega
    have h2 : ¬ (StatsDatabase.get_schema_version db.schema > current_schema_version) := by omega
    unfold StatsDatabase.init
    rw [if_neg h1, if_neg h2]

/-- Witness for `c7_schema_too_new_gate` at a version-4 store and a
version-3 store. -/
theorem c7_schema_too_new_gate_witness :
    (StatsDatabase.get_schema_version dbV4.schema > current_schema_version ∧
      StatsDatabase.init dbV4 = .error { dbVersion := 4, supportedVersion := 3 }) ∧
    (StatsDatabase.get_schema_version dbV3.schema = current_schema_version ∧
      StatsDatabase.init dbV3 = .ok (dbV3, hydrate dbV3)) :=
  ⟨⟨by decide, (c7_schema_too_new_gate dbV4).1 (by decide)⟩,
   ⟨by decide, (c7_schema_too_new_gate dbV3).2 (by decide)⟩⟩

/-- C8: the Schema Manager run (version check plus `_update_schema`) is
idempotent: on a fresh store (stored version 0) running it twice yields
exactly the schema of running it once, which is at version 3; and on a store
already at the current version it is a no-op. -/
theorem c8_migration_idempotent :
    StatsDatabase.get_schema_version {} = 0 ∧
    runSchemaManager {} = .ok (StatsDatabase.update_schema 0 {}) ∧
    runSchemaManager (StatsDatabase.update_schema 0 {})
      = .ok (StatsDatabase.update_schema 0 {}) ∧
    StatsDatabase.get_schema_version (StatsDatabase.update_schema 0 {})
      = current_schema_version ∧
    (∀ t : Schema, StatsDatabase.get_schema_version t = current_schema_version →
      runSchemaManager t = .ok t) := by
  refine ⟨by decide, by rfl, by rfl, by decide, ?_⟩
  intro t h
  unfold runSchemaManager
  rw [h]
  rfl

/-- Witness for the universally quantified no-op part of
`c8_migration_idempotent`, at the store produced by the migration itself. -/
theorem c8_migration_idempotent_witness :
    runSchemaManager (StatsDatabase.update_schema 0 {})
      = .ok (StatsDatabase.update_schema 0 {}) :=
  c8_migration_idempotent.2.2.2.2 (StatsDatabase.update_schema 0 {})
    c8_migration_idempotent.2.2.2.1

end RealBot
